import Mathlib

/- Shallow embedding of the post-classification and navigation logic of the
rafter-blog repository: the GraphQL page query of the blog index (filtering
documents by frontmatter.type and sorting by frontmatter.date descending),
the blog post template (journal heading, warning box, date line, prev/next
links), and the index title fallback. -/

namespace RafterBlog

/-- Frontmatter metadata parsed from an MDX document: an optional title, a
publication timestamp (modelled as a natural number; the formatString of the
query only affects display), and an optional type tag, of which the source
only distinguishes the value "journal". -/
structure Frontmatter where
  title : Option String
  date : Nat
  type : Option String
  deriving Repr, DecidableEq

/-- A content document as consumed by the index page and the post template:
a slug (fields.slug), parsed frontmatter, and a derived excerpt. -/
structure Document where
  slug : String
  frontmatter : Frontmatter
  excerpt : String
  deriving Repr, DecidableEq

/-- The journal test shared by the GraphQL filters (type eq/ne "journal" in
the index page query) and the post template (type === "journal"). A document
with no type field is not a journal. -/
def isJournal (d : Document) : Bool :=
  d.frontmatter.type == some "journal"

/-- Insert a document into a list sorted by frontmatter.date descending,
placing it before the first element with a strictly smaller date, so that
elements with equal dates keep their original relative order. -/
def insertDesc (d : Document) : List Document → List Document
  | [] => [d]
  | x :: xs =>
    if d.frontmatter.date < x.frontmatter.date then x :: insertDesc d xs
    else d :: x :: xs

/-- Stable sort by frontmatter.date descending, embedding the clause
sort: (fields: [frontmatter___date], order: DESC) of the index page query. -/
def sortByDateDesc : List Document → List Document
  | [] => []
  | x :: xs => insertDesc x (sortByDateDesc xs)

/-- The partitioning performed by the two allMdx queries of the blog index:
posts are the documents whose type is not "journal" and journals are the
documents whose type equals "journal", each sorted by date descending. -/
def classify (docs : List Document) : List Document × List Document :=
  (sortByDateDesc (docs.filter fun d => !isJournal d),
   sortByDateDesc (docs.filter fun d => isJournal d))

/-- Modelled from the spec: the page-creation step that fills pageContext
(a gatsby-node.js file) is not in the source tree; per the spec, previous is
the document at index + 1 of the sorted posts partition if it exists, and
next is the document at index - 1 if it exists (absent at index 0). -/
def adjacency (posts : List Document) (index : Nat) :
    Option Document × Option Document :=
  (posts[index + 1]?, if index = 0 then none else posts[index - 1]?)

/-- Modelled from the spec: the page-creation step is not in the source tree;
per the spec, prev/next adjacency is computed only within the posts
partition, and journal entries receive no previous and no next. -/
def pageContext (docs : List Document) (d : Document) :
    Option Document × Option Document :=
  if isJournal d then (none, none)
  else
    match (classify docs).1.findIdx? (fun x => x == d) with
    | some i => adjacency (classify docs).1 i
    | none => (none, none)

/-- Observable pieces of a rendered blog post page: the h1 heading text,
whether the date line is rendered, whether the journal warning box is
rendered, and the slugs of the previous and next links when present. -/
structure RenderedPost where
  heading : String
  dateShown : Bool
  warningShown : Bool
  prevLink : Option String
  nextLink : Option String
  deriving Repr, DecidableEq

/-- Embedding of BlogPostTemplate: the heading is the title prefixed with
"Journal: " exactly for journals, the date line is rendered exactly for
non-journals, the warning box exactly for journals, and a prev/next link is
rendered exactly when the corresponding pageContext entry is present. -/
def renderPost (post : Document) (previous next : Option Document) :
    RenderedPost :=
  let isJ := isJournal post
  { heading := (if isJ then "Journal: " else "") ++ post.frontmatter.title.getD "",
    dateShown := !isJ,
    warningShown := isJ,
    prevLink := previous.map (fun p => p.slug),
    nextLink := next.map (fun n => n.slug) }

/-- Embedding of the title expression of the index page and of the Journals
list, node.frontmatter.title || node.fields.slug: a missing or empty title
falls back to the slug, since the empty string is falsy. -/
def indexEntryTitle (d : Document) : String :=
  match d.frontmatter.title with
  | some t => if t = "" then d.slug else t
  | none => d.slug

/-- The two title lists rendered by the index page: the posts list and the
journals list, in partition order. -/
def renderIndexTitles (docs : List Document) : List String × List String :=
  ((classify docs).1.map indexEntryTitle, (classify docs).2.map indexEntryTitle)

/-- Sample journal document used to instantiate theorems with hypotheses. -/
def sampleJournal : Document :=
  { slug := "/journal-one/",
    frontmatter := { title := some "J1", date := 100, type := some "journal" },
    excerpt := "j1" }

/-- Sample regular posts used to instantiate theorems with hypotheses. -/
def samplePost1 : Document :=
  { slug := "/post-one/",
    frontmatter := { title := some "P1", date := 10, type := none },
    excerpt := "p1" }

/-- Second sample post, with a later date than samplePost1. -/
def samplePost2 : Document :=
  { slug := "/post-two/",
    frontmatter := { title := some "P2", date := 20, type := some "post" },
    excerpt := "p2" }

/-- Third sample post, with the latest date of the samples. -/
def samplePost3 : Document :=
  { slug := "/post-three/",
    frontmatter := { title := some "P3", date := 30, type := none },
    excerpt := "p3" }

/-- Inserting a document is a permutation of consing it. -/
lemma insertDesc_perm (d : Document) (l : List Document) :
    List.Perm (insertDesc d l) (d :: l) := by
  induction l with
  | nil => rfl
  | cons x xs ih =>
    rw [insertDesc]
    by_cases hc : d.frontmatter.date < x.frontmatter.date
    · rw [if_pos hc]
      exact (ih.cons x).trans (List.Perm.swap d x xs)
    · rw [if_neg hc]

/-- The stable descending sort permutes its input. -/
lemma sortByDateDesc_perm (l : List Document) : List.Perm (sortByDateDesc l) l := by
  induction l with
  | nil => rfl
  | cons x xs ih =>
    exact (insertDesc_perm x (sortByDateDesc xs)).trans (ih.cons x)

/-- Membership in the sorted list is membership in the input. -/
lemma mem_sortByDateDesc {d : Document} {l : List Document} :
    d ∈ sortByDateDesc l ↔ d ∈ l :=
  (sortByDateDesc_perm l).mem_iff

/-- Inserting into a list sorted by date descending keeps it sorted. -/
lemma pairwise_insertDesc (d : Document) (l : List Document)
    (h : l.Pairwise (fun a b => b.frontmatter.date ≤ a.frontmatter.date)) :
    (insertDesc d l).Pairwise
      (fun a b => b.frontmatter.date ≤ a.frontmatter.date) := by
  induction l with
  | nil => simp [insertDesc]
  | cons x xs ih =>
    rw [insertDesc]
    rcases List.pairwise_cons.mp h with ⟨hx, hxs⟩
    by_cases hc : d.frontmatter.date < x.frontmatter.date
    · rw [if_pos hc]
      refine List.pairwise_cons.mpr ⟨?_, ih hxs⟩
      intro y hy
      rcases List.mem_cons.mp ((insertDesc_perm d xs).mem_iff.mp hy) with hy | hy
      · subst hy; exact Nat.le_of_lt hc
      · exact hx y hy
    · rw [if_neg hc]
      refine List.pairwise_cons.mpr ⟨?_, h⟩
      intro y hy
      rcases List.mem_cons.mp hy with hy | hy
      · subst hy; exact Nat.le_of_not_lt hc
      · exact Nat.le_trans (hx y hy) (Nat.le_of_not_lt hc)

/-- The sorted list is pairwise descending in frontmatter.date. -/
lemma pairwise_sortByDateDesc (l : List Document) :
    (sortByDateDesc l).Pairwise
      (fun a b => b.frontmatter.date ≤ a.frontmatter.date) := by
  induction l with
  | nil => simp [sortByDateDesc]
  | cons x xs ih => exact pairwise_insertDesc x (sortByDateDesc xs) ih

/-- Filtering by the exact date of the inserted document puts it first:
every element it is placed behind has a strictly larger date. -/
lemma filter_insertDesc_eq (v : Nat) (d : Document) (l : List Document)
    (hd : d.frontmatter.date = v) :
    (insertDesc d l).filter (fun x => x.frontmatter.date == v)
      = d :: l.filter (fun x => x.frontmatter.date == v) := by
  induction l with
  | nil => simp [insertDesc, List.filter, hd]
  | cons x xs ih =>
    rw [insertDesc]
    by_cases hc : d.frontmatter.date < x.frontmatter.date
    · rw [if_pos hc]
      have hxv : (x.frontmatter.date == v) = false := by
        apply beq_eq_false_iff_ne.mpr
        subst hd
        exact Nat.ne_of_gt hc
      simp [List.filter, hxv, ih]
    · rw [if_neg hc]
      simp [List.filter, hd]

/-- Inserting a document whose date differs from v does not change the
filter by date v. -/
lemma filter_insertDesc_ne (v : Nat) (d : Document) (l : List Document)
    (hd : d.frontmatter.date ≠ v) :
    (insertDesc d l).filter (fun x => x.frontmatter.date == v)
      = l.filter (fun x => x.frontmatter.date == v) := by
  induction l with
  | nil => simp [insertDesc, List.filter, beq_eq_false_iff_ne.mpr hd]
  | cons x xs ih =>
    rw [insertDesc]
    by_cases hc : d.frontmatter.date < x.frontmatter.date
    · rw [if_pos hc]
      simp [List.filter, ih]
    · rw [if_neg hc]
      simp [List.filter, beq_eq_false_iff_ne.mpr hd]

/-- Stability of the descending sort, in the standard filter form: the
documents carrying any fixed date appear in the output exactly in their
input order. -/
lemma filter_sortByDateDesc (v : Nat) (l : List Document) :
    (sortByDateDesc l).filter (fun x => x.frontmatter.date == v)
      = l.filter (fun x => x.frontmatter.date == v) := by
  induction l with
  | nil => rfl
  | cons x xs ih =>
    rw [sortByDateDesc]
    by_cases hv : x.frontmatter.date = v
    · rw [filter_insertDesc_eq v x (sortByDateDesc xs) hv, ih]
      simp [List.filter, hv]
    · rw [filter_insertDesc_ne v x (sortByDateDesc xs) hv, ih]
      simp [List.filter, beq_eq_false_iff_ne.mpr hv]

/-- Pairwise order gives the adjacent-pair order through optional indexing. -/
lemma pairwise_get_adjacent {R : Document → Document → Prop}
    {l : List Document} (h : l.Pairwise R) {i : Nat} {a b : Document}
    (ha : l[i]? = some a) (hb : l[i + 1]? = some b) : R a b := by
  rw [List.getElem?_eq_some] at ha hb
  obtain ⟨hi, ha⟩ := ha
  obtain ⟨hj, hb⟩ := hb
  subst ha hb
  exact List.pairwise_iff_getElem.mp h i (i + 1) hi hj (Nat.lt_succ_self i)

/-- C1: a document of the collection lands in the journals partition exactly
when its frontmatter.type equals "journal", and in the posts partition
exactly when it does not (in particular when the type field is missing). -/
theorem classify_partition_by_type (l : List Document) (d : Document) :
    (d ∈ (classify l).2 ↔ d ∈ l ∧ d.frontmatter.type = some "journal")
    ∧ (d ∈ (classify l).1 ↔ d ∈ l ∧ d.frontmatter.type ≠ some "journal") := by
  constructor
  · simp [classify, mem_sortByDateDesc, List.mem_filter, isJournal]
  · simp [classify, mem_sortByDateDesc, List.mem_filter, isJournal]

/-- C2: in either partition produced by classify, any two adjacent documents
have non-increasing frontmatter.date, so both partitions are sorted by date
descending. -/
theorem classify_sorted_desc (l : List Document) (i : Nat) (a b : Document)
    (h : ((classify l).1[i]? = some a ∧ (classify l).1[i + 1]? = some b)
       ∨ ((classify l).2[i]? = some a ∧ (classify l).2[i + 1]? = some b)) :
    b.frontmatter.date ≤ a.frontmatter.date := by
  rcases h with ⟨ha, hb⟩ | ⟨ha, hb⟩
  · exact pairwise_get_adjacent (pairwise_sortByDateDesc _) ha hb
  · exact pairwise_get_adjacent (pairwise_sortByDateDesc _) ha hb

/-- C2 witness: on the collection of the two sample posts, the partition is
sorted with the later date first. -/
theorem classify_sorted_desc_witness :
    ((classify [samplePost1, samplePost2]).1[0]? = some samplePost2
      ∧ (classify [samplePost1, samplePost2]).1[1]? = some samplePost1)
    ∧ samplePost1.frontmatter.date ≤ samplePost2.frontmatter.date :=
  ⟨⟨by decide, by decide⟩,
    classify_sorted_desc [samplePost1, samplePost2] 0 samplePost2 samplePost1
      (Or.inl ⟨by decide, by decide⟩)⟩

/-- C3: for a valid index into the posts partition, previous is the document
at index + 1 when it exists and absent otherwise, next is the document at
index - 1 when the index is positive and absent at index 0, and previous is
absent at the last index. -/
theorem adjacency_neighbors (posts : List Document) (i : Nat)
    (h : i < posts.length) :
    (adjacency posts i).1 = posts[i + 1]?
    ∧ (adjacency posts i).2 = (if i = 0 then none else posts[i - 1]?)
    ∧ (i = 0 → (adjacency posts i).2 = none)
    ∧ (i = posts.length - 1 → (adjacency posts i).1 = none) := by
  refine ⟨rfl, rfl, ?_, ?_⟩
  · intro h0
    simp [adjacency, h0]
  · intro hlast
    have hlen : posts.length ≤ i + 1 := by omega
    simp [adjacency, List.getElem?_eq_none hlen]

/-- C3 witness: in the three-post list sorted descending, the middle document
has the oldest document as previous and the newest as next. -/
theorem adjacency_neighbors_witness :
    1 < ([samplePost3, samplePost2, samplePost1] : List Document).length
    ∧ ((adjacency [samplePost3, samplePost2, samplePost1] 1).1
        = [samplePost3, samplePost2, samplePost1][1 + 1]?
      ∧ (adjacency [samplePost3, samplePost2, samplePost1] 1).2
        = (if 1 = 0 then none else [samplePost3, samplePost2, samplePost1][1 - 1]?)
      ∧ (1 = 0 → (adjacency [samplePost3, samplePost2, samplePost1] 1).2 = none)
      ∧ (1 = ([samplePost3, samplePost2, samplePost1] : List Document).length - 1
          → (adjacency [samplePost3, samplePost2, samplePost1] 1).1 = none)) :=
  ⟨by decide, adjacency_neighbors [samplePost3, samplePost2, samplePost1] 1 (by decide)⟩

/-- C4: a document whose frontmatter.type is "journal" renders with no
previous link and no next link, since the page context computes adjacency
only for the posts partition. -/
theorem journal_page_no_prev_next (docs : List Document) (d : Document)
    (h : d.frontmatter.type = some "journal") :
    (renderPost d (pageContext docs d).1 (pageContext docs d).2).prevLink = none
    ∧ (renderPost d (pageContext docs d).1 (pageContext docs d).2).nextLink
      = none := by
  have hj : isJournal d = true := by simp [isJournal, h]
  simp [pageContext, hj, renderPost]

/-- C4 witness: the sample journal page, built from a collection that also
holds a regular post, renders no previous and no next link. -/
theorem journal_page_no_prev_next_witness :
    sampleJournal.frontmatter.type = some "journal"
    ∧ ((renderPost sampleJournal
          (pageContext [sampleJournal, samplePost1] sampleJournal).1
          (pageContext [sampleJournal, samplePost1] sampleJournal).2).prevLink
        = none
      ∧ (renderPost sampleJournal
          (pageContext [sampleJournal, samplePost1] sampleJournal).1
          (pageContext [sampleJournal, samplePost1] sampleJournal).2).nextLink
        = none) :=
  ⟨rfl, journal_page_no_prev_next [sampleJournal, samplePost1] sampleJournal rfl⟩

/-- C5: the two partitions together are a permutation of the input, so no
document is dropped or duplicated across partitions, and no document is a
member of both partitions. -/
theorem classify_complete_and_disjoint (l : List Document) :
    List.Perm ((classify l).1 ++ (classify l).2) l
    ∧ ∀ d : Document, ¬(d ∈ (classify l).1 ∧ d ∈ (classify l).2) := by
  constructor
  · have h1 := sortByDateDesc_perm (l.filter fun d => !isJournal d)
    have h2 := sortByDateDesc_perm (l.filter fun d => isJournal d)
    have h3 : List.Perm
        ((l.filter fun d => !isJournal d) ++ (l.filter fun d => isJournal d))
        l := by
      have h := List.filter_append_perm (fun d => !isJournal d) l
      simpa [Bool.not_not] using h
    exact (h1.append h2).trans h3
  · intro d hd
    rcases hd with ⟨hp, hj⟩
    rw [classify] at hp hj
    simp only [mem_sortByDateDesc, List.mem_filter] at hp hj
    rcases hp with ⟨-, hp⟩
    rcases hj with ⟨-, hj⟩
    simp [hj] at hp

/-- C6: the sort inside classify is stable, stated in filter form: for any
fixed date value, the documents of a partition carrying that date appear in
the output exactly in their input order. -/
theorem classify_stable (l : List Document) (v : Nat) :
    (classify l).1.filter (fun d => d.frontmatter.date == v)
        = (l.filter fun d => !isJournal d).filter
            (fun d => d.frontmatter.date == v)
    ∧ (classify l).2.filter (fun d => d.frontmatter.date == v)
        = (l.filter fun d => isJournal d).filter
            (fun d => d.frontmatter.date == v) :=
  ⟨filter_sortByDateDesc v _, filter_sortByDateDesc v _⟩

/-- C7: classify of the empty collection is a pair of empty sequences; being
a total function of the embedding, it signals no error on any input. -/
theorem classify_empty : classify [] = ([], []) := rfl

/-- C8: classify and adjacency are deterministic: equal inputs give equal
outputs. They are pure functions of the embedding, with no state outside
their return values. -/
theorem classify_adjacency_deterministic
    (l₁ l₂ posts₁ posts₂ : List Document) (i₁ i₂ : Nat)
    (hl : l₁ = l₂) (hp : posts₁ = posts₂) (hi : i₁ = i₂) :
    classify l₁ = classify l₂ ∧ adjacency posts₁ i₁ = adjacency posts₂ i₂ := by
  subst hl
  subst hp
  subst hi
  exact ⟨rfl, rfl⟩

/-- C8 witness: determinism instantiated on a concrete collection, posts
list and index. -/
theorem classify_adjacency_deterministic_witness :
    classify [samplePost1, sampleJournal] = classify [samplePost1, sampleJournal]
    ∧ adjacency [samplePost1] 0 = adjacency [samplePost1] 0 :=
  classify_adjacency_deterministic [samplePost1, sampleJournal]
    [samplePost1, sampleJournal] [samplePost1] [samplePost1] 0 0 rfl rfl rfl

/-- C9: the post page shows the warning box exactly when frontmatter.type is
"journal", shows the date line exactly when it is not, and prefixes the
heading with "Journal: " exactly in the journal case. -/
theorem post_page_journal_rendering (p : Document)
    (previous next : Option Document) :
    ((renderPost p previous next).warningShown = true
      ↔ p.frontmatter.type = some "journal")
    ∧ ((renderPost p previous next).dateShown = true
      ↔ ¬p.frontmatter.type = some "journal")
    ∧ (p.frontmatter.type = some "journal" →
        (renderPost p previous next).heading
          = "Journal: " ++ p.frontmatter.title.getD "")
    ∧ (p.frontmatter.type ≠ some "journal" →
        (renderPost p previous next).heading = p.frontmatter.title.getD "") := by
  refine ⟨?_, ?_, ?_, ?_⟩
  · simp [renderPost, isJournal]
  · simp [renderPost, isJournal]
  · intro h
    simp [renderPost, isJournal, h]
  · intro h
    simp [renderPost, isJournal, h]

/-- C9 witness: the sample journal page shows the warning and the prefixed
heading. -/
theorem post_page_journal_rendering_witness :
    (renderPost sampleJournal none none).warningShown = true
    ∧ (renderPost sampleJournal none none).heading = "Journal: " ++ "J1" :=
  ⟨(post_page_journal_rendering sampleJournal none none).1.mpr rfl,
   (post_page_journal_rendering sampleJournal none none).2.2.1 rfl⟩

/-- C10: every document listed on the index page (in the posts list or the
journals list) is displayed under its frontmatter title when that title is
present and non-empty, and under its slug otherwise. -/
theorem index_title_fallback (docs : List Document) (d : Document)
    (h : d ∈ (classify docs).1 ∨ d ∈ (classify docs).2) :
    (indexEntryTitle d ∈ (renderIndexTitles docs).1
      ∨ indexEntryTitle d ∈ (renderIndexTitles docs).2)
    ∧ (∀ t : String,
        d.frontmatter.title = some t → t ≠ "" → indexEntryTitle d = t)
    ∧ ((d.frontmatter.title = none ∨ d.frontmatter.title = some "") →
        indexEntryTitle d = d.slug) := by
  refine ⟨?_, ?_, ?_⟩
  · rcases h with h | h
    · exact Or.inl (List.mem_map_of_mem indexEntryTitle h)
    · exact Or.inr (List.mem_map_of_mem indexEntryTitle h)
  · intro t ht hne
    simp [indexEntryTitle, ht, hne]
  · intro ht
    rcases ht with ht | ht <;> simp [indexEntryTitle, ht]

/-- C10 witness: the sample post is listed and displayed under its title. -/
theorem index_title_fallback_witness :
    (samplePost1 ∈ (classify [samplePost1]).1
      ∨ samplePost1 ∈ (classify [samplePost1]).2)
    ∧ ((indexEntryTitle samplePost1 ∈ (renderIndexTitles [samplePost1]).1
        ∨ indexEntryTitle samplePost1 ∈ (renderIndexTitles [samplePost1]).2)
      ∧ (∀ t : String, samplePost1.frontmatter.title = some t → t ≠ ""
          → indexEntryTitle samplePost1 = t)
      ∧ ((samplePost1.frontmatter.title = none
          ∨ samplePost1.frontmatter.title = some "") →
          indexEntryTitle samplePost1 = samplePost1.slug)) :=
  ⟨Or.inl (by decide),
   index_title_fallback [samplePost1] samplePost1 (Or.inl (by decide))⟩

end RafterBlog
